import Mathlib

/-!
Shallow embedding of the schema-drift detection and cache-invalidation core of
`src/app.py` (Assistente SQL com Auto-Detecção), together with proofs of the
specified properties.

The embedding models:
* `obter_banco_atual` (app.py 108-116): current database name with the
  `"Banco Desconhecido"` fallback on failure;
* `gerar_hash_schema` (app.py 182-197): canonical snapshot (sorted tables,
  sorted columns), `json.dumps(..., sort_keys=True)` serialization, and the
  MD5 hex digest, all implemented concretely;
* `verificar_mudancas` (app.py 200-251): the drift detector acting on the
  session state (`schema_hash_teste`, `schema_info`, `novas_tabelas`,
  `deletadas_tabelas`, `historico_mudancas`, `banco_atual`, app.py 26-33);
* the module-level drift handling (app.py 282-304) that clears the
  `st.cache_resource` caches when a change is detected;
* the sidebar history display `reversed(historico_mudancas[-5:])`
  (app.py 342-354), generalized over the window size;
* `classificar_intencao` (app.py 370-416) with its memo cache
  `cache_classificacoes` (app.py 36-37).

Database reads and the external LLM call are inputs of the model: a cycle
receives the result of the catalog read (`none` when the driver raises) and
the current time; the classifier receives the LLM answer (`none` when the
call raises).
-/

/-! ### Python string ordering

Python's `sorted` on `str` compares lexicographically by code point, which is
exactly the lexicographic order on `String.data` (`List Char` ordered by code
point). We sort with that order directly so that terms reduce. -/

/-- Lexicographic code-point order on strings, as used by Python `sorted`. -/
def strle (a b : String) : Prop := a.data ≤ b.data

instance : DecidableRel strle := fun a b => inferInstanceAs (Decidable (a.data ≤ b.data))

instance : IsTrans String strle := ⟨fun _ _ _ h h' => le_trans h h'⟩

instance : IsTotal String strle := ⟨fun a b => le_total a.data b.data⟩

instance : IsAntisymm String strle := ⟨fun a b h h' => by
  cases a; cases b
  simp only [strle] at h h'
  exact congrArg String.mk (le_antisymm h h')⟩

/-- Python `sorted` on a list of strings. -/
def pySorted (l : List String) : List String := List.insertionSort strle l

/-! ### UTF-8 encoding (`str.encode()` in `gerar_hash_schema`) -/

/-- UTF-8 encoding of a single code point, as a list of byte values. -/
def utf8Char (c : Char) : List Nat :=
  let n := c.toNat
  if n < 128 then [n]
  else if n < 2048 then [192 ||| (n >>> 6), 128 ||| (n &&& 63)]
  else if n < 65536 then
    [224 ||| (n >>> 12), 128 ||| ((n >>> 6) &&& 63), 128 ||| (n &&& 63)]
  else
    [240 ||| (n >>> 18), 128 ||| ((n >>> 12) &&& 63),
     128 ||| ((n >>> 6) &&& 63), 128 ||| (n &&& 63)]

/-- UTF-8 encoding of a string (Python `s.encode()`). -/
def utf8Encode (s : String) : List Nat := s.data.flatMap utf8Char

/-! ### `json.dumps(..., sort_keys=True)`

The serialized value in `gerar_hash_schema` is a dict mapping table names to
lists of column names. Python's default rendering uses `", "` and `": "`
separators and `ensure_ascii=True` escaping with lowercase hex. -/

/-- Lowercase hexadecimal digit. -/
def hexDigit (n : Nat) : Char := if n < 10 then Char.ofNat (48 + n) else Char.ofNat (87 + n)

/-- Four-digit lowercase hexadecimal rendering of a code unit. -/
def hex4 (n : Nat) : String :=
  String.mk [hexDigit ((n >>> 12) &&& 15), hexDigit ((n >>> 8) &&& 15),
             hexDigit ((n >>> 4) &&& 15), hexDigit (n &&& 15)]

/-- JSON escaping of one character, following Python `json.dumps` defaults
(`ensure_ascii=True`, lowercase `\uXXXX`, surrogate pairs above the BMP). -/
def jsonEscapeChar (c : Char) : String :=
  let n := c.toNat
  if c = '"' then "\\\""
  else if c = '\\' then "\\\\"
  else if c = '\n' then "\\n"
  else if c = '\t' then "\\t"
  else if c = '\r' then "\\r"
  else if n = 8 then "\\b"
  else if n = 12 then "\\f"
  else if n < 32 then "\\u" ++ hex4 n
  else if n < 127 then String.singleton c
  else if n < 65536 then "\\u" ++ hex4 n
  else
    let m := n - 65536
    "\\u" ++ hex4 (55296 + (m >>> 10)) ++ "\\u" ++ hex4 (56320 + (m &&& 1023))

/-- JSON rendering of a string literal. -/
def jsonStr (s : String) : String :=
  "\"" ++ String.join (s.data.map jsonEscapeChar) ++ "\""

/-- JSON rendering of a list of strings. -/
def jsonStrList (xs : List String) : String :=
  "[" ++ String.intercalate ", " (xs.map jsonStr) ++ "]"

/-- JSON rendering of a string-to-string-list dict, keys in the order given.
`gerar_hash_schema` passes `sort_keys=True` and builds the dict in sorted key
order, so serializing in list order agrees with Python's output. -/
def jsonDumps (m : List (String × List String)) : String :=
  "\x7b" ++
    String.intercalate ", " (m.map fun p => jsonStr p.1 ++ ": " ++ jsonStrList p.2) ++
  "\x7d"

/-! ### MD5 (`hashlib.md5(...).hexdigest()`) -/

/-- 2^32, the word modulus of MD5. -/
def M32 : Nat := 4294967296

/-- Left rotation of a 32-bit word. -/
def rotl32 (x n : Nat) : Nat := ((x * 2 ^ n) % M32) ||| (x / 2 ^ (32 - n))

/-- The 64 MD5 sine-derived constants. -/
def md5K : List Nat :=
  [0xd76aa478, 0xe8c7b756, 0x242070db, 0xc1bdceee,
   0xf57c0faf, 0x4787c62a, 0xa8304613, 0xfd469501,
   0x698098d8, 0x8b44f7af, 0xffff5bb1, 0x895cd7be,
   0x6b901122, 0xfd987193, 0xa679438e, 0x49b40821,
   0xf61e2562, 0xc040b340, 0x265e5a51, 0xe9b6c7aa,
   0xd62f105d, 0x02441453, 0xd8a1e681, 0xe7d3fbc8,
   0x21e1cde6, 0xc33707d6, 0xf4d50d87, 0x455a14ed,
   0xa9e3e905, 0xfcefa3f8, 0x676f02d9, 0x8d2a4c8a,
   0xfffa3942, 0x8771f681, 0x6d9d6122, 0xfde5380c,
   0xa4beea44, 0x4bdecfa9, 0xf6bb4b60, 0xbebfbc70,
   0x289b7ec6, 0xeaa127fa, 0xd4ef3085, 0x04881d05,
   0xd9d4d039, 0xe6db99e5, 0x1fa27cf8, 0xc4ac5665,
   0xf4292244, 0x432aff97, 0xab9423a7, 0xfc93a039,
   0x655b59c3, 0x8f0ccc92, 0xffeff47d, 0x85845dd1,
   0x6fa87e4f, 0xfe2ce6e0, 0xa3014314, 0x4e0811a1,
   0xf7537e82, 0xbd3af235, 0x2ad7d2bb, 0xeb86d391]

/-- The 64 MD5 per-round left-rotation amounts. -/
def md5S : List Nat :=
  [7, 12, 17, 22, 7, 12, 17, 22, 7, 12, 17, 22, 7, 12, 17, 22,
   5, 9, 14, 20, 5, 9, 14, 20, 5, 9, 14, 20, 5, 9, 14, 20,
   4, 11, 16, 23, 4, 11, 16, 23, 4, 11, 16, 23, 4, 11, 16, 23,
   6, 10, 15, 21, 6, 10, 15, 21, 6, 10, 15, 21, 6, 10, 15, 21]

/-- Group a byte list into little-endian 32-bit words. -/
def leWords : List Nat → List Nat
  | b0 :: b1 :: b2 :: b3 :: rest =>
      (b0 + 256 * (b1 + 256 * (b2 + 256 * b3))) :: leWords rest
  | _ => []

/-- Little-endian byte rendering of a word, `k` bytes wide. -/
def leBytes : Nat → Nat → List Nat
  | 0, _ => []
  | k + 1, n => n % 256 :: leBytes k (n / 256)

/-- MD5 padding: `0x80`, zeros to 56 mod 64, then the bit length as a
little-endian 64-bit quantity. -/
def md5pad (msg : List Nat) : List Nat :=
  let len := msg.length
  let z := (119 - len % 64) % 64
  msg ++ [128] ++ List.replicate z 0 ++ leBytes 8 ((8 * len) % 2 ^ 64)

/-- One MD5 round applied to the running state `(A, B, C, D)`. -/
def md5round (M : List Nat) (st : Nat × Nat × Nat × Nat) (i : Nat) :
    Nat × Nat × Nat × Nat :=
  let (A, B, C, D) := st
  let (F, g) :=
    if i < 16 then ((B &&& C) ||| ((4294967295 - B) &&& D), i)
    else if i < 32 then ((D &&& B) ||| ((4294967295 - D) &&& C), (5 * i + 1) % 16)
    else if i < 48 then (B ^^^ C ^^^ D, (3 * i + 5) % 16)
    else (C ^^^ (B ||| (4294967295 - D)), (7 * i) % 16)
  let F2 := (F + A + md5K.getD i 0 + M.getD g 0) % M32
  (D, (B + rotl32 F2 (md5S.getD i 0)) % M32, B, C)

/-- MD5 compression of one 64-byte chunk. -/
def md5chunk (st : Nat × Nat × Nat × Nat) (chunk : List Nat) :
    Nat × Nat × Nat × Nat :=
  let M := leWords chunk
  let r := (List.range 64).foldl (md5round M) st
  ((st.1 + r.1) % M32, (st.2.1 + r.2.1) % M32,
   (st.2.2.1 + r.2.2.1) % M32, (st.2.2.2 + r.2.2.2) % M32)

/-- Fold the compression function over `n` successive 64-byte chunks. -/
def md5chunks : Nat → List Nat → Nat × Nat × Nat × Nat → Nat × Nat × Nat × Nat
  | 0, _, st => st
  | n + 1, msg, st => md5chunks n (msg.drop 64) (md5chunk st (msg.take 64))

/-- MD5 digest of a byte list, as 16 bytes. -/
def md5bytes (msg : List Nat) : List Nat :=
  let padded := md5pad msg
  let r := md5chunks (padded.length / 64) padded
    (0x67452301, 0xefcdab89, 0x98badcfe, 0x10325476)
  leBytes 4 r.1 ++ leBytes 4 r.2.1 ++ leBytes 4 r.2.2.1 ++ leBytes 4 r.2.2.2

/-- Lowercase hex rendering of a byte list. -/
def toHexStr (bytes : List Nat) : String :=
  String.mk (bytes.flatMap fun b => [hexDigit (b / 16), hexDigit (b % 16)])

/-- `hashlib.md5(s.encode()).hexdigest()`. -/
def md5hex (s : String) : String := toHexStr (md5bytes (utf8Encode s))

/-! ### Observation inputs

A drift-check cycle reads the database catalog and the current database name
over separate connections (`inspect(engine)` vs `engine.connect()` in
`obter_banco_atual`); either read can fail independently. `none` models the
driver raising an exception during that read. -/

/-- The raw result of one cycle's database reads: the table/column listing in
retrieval order (`inspector.get_table_names` / `get_columns`), and the
`SELECT DB_NAME()` result. -/
structure CatalogRead where
  catalog : Option (List (String × List String))
  dbName : Option String
deriving Repr, DecidableEq

/-- `obter_banco_atual` (app.py 108-116): returns the current database name,
or `"Banco Desconhecido"` when the read raises. -/
def obter_banco_atual (dbName : Option String) : String :=
  match dbName with
  | some banco => banco
  | none => "Banco Desconhecido"

/-- `inspector.get_columns(tabela)` over the raw listing: the column names
recorded for `tabela`. -/
def get_columns (catalog : List (String × List String)) (tabela : String) : List String :=
  match catalog.find? fun p => p.1 == tabela with
  | some p => p.2
  | none => []

/-- `gerar_hash_schema` (app.py 182-197): sorts the table names, maps each
table to its sorted column names (a Python dict built in sorted key order,
hence `dedup` for repeated keys), serializes with
`json.dumps(..., sort_keys=True)` and hashes with MD5. Returns `none` when
the catalog read raises (the `except` branch returning `None, None, None`). -/
def gerar_hash_schema (r : CatalogRead) :
    Option (String × List (String × List String) × String) :=
  match r.catalog with
  | none => none
  | some cat =>
    let tabelas := (pySorted (cat.map Prod.fst)).dedup
    let banco_nome := obter_banco_atual r.dbName
    let schema_info := tabelas.map fun t => (t, pySorted (get_columns cat t))
    let schema_json := jsonDumps schema_info
    let hash_atual := md5hex schema_json
    some (hash_atual, schema_info, banco_nome)

/-! ### Session state and the drift detector -/

/-- One entry of `st.session_state.historico_mudancas`: either a
`"tipo": "banco_novo"` dict (app.py 217-222) or a `"tipo": "schema"` dict
(app.py 236-242). The timestamp models `datetime.now().isoformat()`. -/
inductive DriftRecord where
  | banco_novo (timestamp : Nat) (banco_anterior : Option String) (banco : String)
  | schema (timestamp : Nat) (banco : String) (novas deletadas : List String)
deriving Repr, DecidableEq

/-- The drift-related `st.session_state` fields (app.py 26-33). -/
structure SessionState where
  schema_hash_teste : Option String
  schema_info : Option (List (String × List String))
  novas_tabelas : List String
  deletadas_tabelas : List String
  historico_mudancas : List DriftRecord
  banco_atual : Option String
deriving Repr, DecidableEq

/-- The initial session state (app.py 26-33). -/
def initSessionState : SessionState :=
  { schema_hash_teste := none
    schema_info := none
    novas_tabelas := []
    deletadas_tabelas := []
    historico_mudancas := []
    banco_atual := none }

/-- The six components returned by `verificar_mudancas`
(`mudou, hash_ant, hash_novo, schema, banco_atual, tipo_mudanca`). -/
structure VerificarResult where
  mudou : Bool
  hash_ant : Option String
  hash_novo : Option String
  schema : Option (List (String × List String))
  banco : Option String
  tipo : Option String
deriving Repr, DecidableEq

/-- `verificar_mudancas` (app.py 200-251): the drift detector. It reads and
updates the session state and returns the result tuple. `now` is the cycle's
timestamp. -/
def verificar_mudancas (s : SessionState) (r : CatalogRead) (now : Nat) :
    SessionState × VerificarResult :=
  match gerar_hash_schema r with
  | none => (s, ⟨false, none, none, none, none, none⟩)
  | some (hash_novo, schema_novo, banco_novo) =>
    match s.schema_hash_teste with
    | none =>
        ({ s with schema_hash_teste := some hash_novo,
                  schema_info := some schema_novo,
                  banco_atual := some banco_novo },
         ⟨false, none, some hash_novo, some schema_novo, some banco_novo, none⟩)
    | some hash_anterior =>
        let banco_anterior := s.banco_atual
        if some banco_novo ≠ banco_anterior then
          ({ s with historico_mudancas := s.historico_mudancas ++
                      [.banco_novo now banco_anterior banco_novo],
                    banco_atual := some banco_novo,
                    schema_hash_teste := some hash_novo,
                    schema_info := some schema_novo },
           ⟨true, some hash_anterior, some hash_novo, some schema_novo,
            some banco_novo, some "BANCO_NOVO"⟩)
        else if hash_novo ≠ hash_anterior then
          let tabelas_anterior := (s.schema_info.getD []).map Prod.fst
          let tabelas_nova := schema_novo.map Prod.fst
          let novas := tabelas_nova.filter fun t => !tabelas_anterior.contains t
          let deletadas := tabelas_anterior.filter fun t => !tabelas_nova.contains t
          ({ s with historico_mudancas := s.historico_mudancas ++
                      [.schema now banco_novo novas deletadas],
                    schema_hash_teste := some hash_novo,
                    schema_info := some schema_novo,
                    novas_tabelas := novas,
                    deletadas_tabelas := deletadas },
           ⟨true, some hash_anterior, some hash_novo, some schema_novo,
            some banco_novo, some "SCHEMA_MUDOU"⟩)
        else
          (s, ⟨false, some hash_anterior, some hash_novo, some schema_novo,
               some banco_novo, none⟩)

/-! ### Module-level drift handling -/

/-- The application-level state around a cycle: the session state, the intent
classification memo `st.session_state.cache_classificacoes` (app.py 36-37),
and whether `st.cache_resource` currently holds built resources (the engine
and vector index; cleared by `st.cache_resource.clear()`). -/
structure AppState where
  session : SessionState
  cache_classificacoes : List (String × String)
  resource_cache : Bool
deriving Repr, DecidableEq

/-- The module-level drift handling (app.py 282-304): run
`verificar_mudancas`; when `mudou` is true, clear the `st.cache_resource`
caches. No other state is touched. -/
def driftCycle (a : AppState) (r : CatalogRead) (now : Nat) :
    AppState × VerificarResult :=
  let p := verificar_mudancas a.session r now
  ({ session := p.1,
     cache_classificacoes := a.cache_classificacoes,
     resource_cache := if p.2.mudou then false else a.resource_cache }, p.2)

/-- The sidebar history view (app.py 344):
`reversed(st.session_state.historico_mudancas[-n:])`, with `n = 5` in the
source. Returns the last `n` records, most recent first, and does not change
the ledger. -/
def recentChanges (n : Nat) (l : List DriftRecord) : List DriftRecord :=
  (l.drop (l.length - n)).reverse

/-- A sequence of drift-check cycles from a starting state, given each
cycle's catalog read and timestamp. -/
def runCycles (s : SessionState) : List (CatalogRead × Nat) → SessionState
  | [] => s
  | (r, t) :: rest => runCycles (verificar_mudancas s r t).1 rest

/-- The number of cycles of a run that detect drift (`mudou = true`). -/
def countDrifts (s : SessionState) : List (CatalogRead × Nat) → Nat
  | [] => 0
  | (r, t) :: rest =>
      (if (verificar_mudancas s r t).2.mudou then 1 else 0) +
        countDrifts (verificar_mudancas s r t).1 rest

/-! ### Intent classification -/

/-- Python `str.lower` (ASCII case mapping, which covers the characters the
classifier's category strings and cache keys rely on). -/
def pyLower (s : String) : String := String.mk (s.data.map Char.toLower)

/-- Python `str.upper` (ASCII case mapping). -/
def pyUpper (s : String) : String := String.mk (s.data.map Char.toUpper)

/-- Whitespace recognized by Python `str.strip` (the ASCII range). -/
def pySpace (c : Char) : Bool :=
  (c == ' ') || (c == '\t') || (c == '\n') || (c == '\r') ||
    (c.toNat == 11) || (c.toNat == 12)

/-- Python `str.strip()`: remove leading and trailing whitespace. -/
def pyStrip (s : String) : String :=
  String.mk (((s.data.dropWhile pySpace).reverse.dropWhile pySpace).reverse)

/-- The category values accepted from the classifier (app.py 407). -/
def categorias_validas : List String := ["SAUDACAO", "GENERICA", "QUERY_SQL", "IRRELEVANTE"]

/-- `classificar_intencao` (app.py 370-416) restricted to its cache and
classification logic. `llmContent` is the content the external LLM call
would return, `none` when the call raises (the `except` branch returning
`"QUERY_SQL"` before the store is reached); the cache is consulted before
the call is made. Returns the category and the updated cache (a cons models
the dict store; `lookup` finds the newest binding first). -/
def classificar_intencao (cache : List (String × String)) (pergunta : String)
    (llmContent : Option String) : String × List (String × String) :=
  let pergunta_norm := pyStrip (pyLower pergunta)
  match cache.lookup pergunta_norm with
  | some c => (c, cache)
  | none =>
    match llmContent with
    | none => ("QUERY_SQL", cache)
    | some content =>
      let categoria := pyUpper (pyStrip content)
      let categoria := if categorias_validas.contains categoria then categoria else "QUERY_SQL"
      (categoria, (pergunta_norm, categoria) :: cache)

/-! ### Helper lemmas -/

/-- Python `sorted` depends only on the multiset of its input. -/
theorem pySorted_perm {l₁ l₂ : List String} (h : l₁.Perm l₂) :
    pySorted l₁ = pySorted l₂ :=
  List.eq_of_perm_of_sorted
    ((List.perm_insertionSort strle l₁).trans (h.trans (List.perm_insertionSort strle l₂).symm))
    (List.sorted_insertionSort strle l₁) (List.sorted_insertionSort strle l₂)

/-! ### C4 -/

/-- Claim C4: The fingerprint computed by `gerar_hash_schema` is deterministic
(computing it twice on the same reads yields the same digest) and
order-independent: if two catalog listings carry the same table-name multiset
and, for every table, the same columns up to order, their MD5 digests are
equal regardless of enumeration order (and of the database name read). -/
theorem c4_theorem (cat cat' : List (String × List String)) (db db' : Option String)
    (hnames : (cat.map Prod.fst).Perm (cat'.map Prod.fst))
    (hcols : ∀ t, (get_columns cat t).Perm (get_columns cat' t)) :
    gerar_hash_schema ⟨some cat, db⟩ = gerar_hash_schema ⟨some cat, db⟩ ∧
    (gerar_hash_schema ⟨some cat, db⟩).map (fun x => x.1) =
      (gerar_hash_schema ⟨some cat', db'⟩).map (fun x => x.1) := by
  refine ⟨rfl, ?_⟩
  have htab : (pySorted (cat.map Prod.fst)).dedup = (pySorted (cat'.map Prod.fst)).dedup := by
    rw [pySorted_perm hnames]
  have hsi : ((pySorted (cat.map Prod.fst)).dedup.map fun t => (t, pySorted (get_columns cat t)))
      = ((pySorted (cat'.map Prod.fst)).dedup.map fun t => (t, pySorted (get_columns cat' t))) := by
    rw [← htab]
    exact List.map_congr_left fun t _ => by rw [pySorted_perm (hcols t)]
  simp only [gerar_hash_schema, hsi]
  rfl

/-- Witness for C4: two listings of the same two-table schema, with both the
tables and the columns of `B` enumerated in different orders, hash equal. -/
theorem c4_witness :
    (gerar_hash_schema ⟨some [("B", ["y", "x"]), ("A", ["a"])], some "d"⟩).map (fun x => x.1) =
    (gerar_hash_schema ⟨some [("A", ["a"]), ("B", ["x", "y"])], some "d"⟩).map (fun x => x.1) := by
  refine (c4_theorem [("B", ["y", "x"]), ("A", ["a"])] [("A", ["a"]), ("B", ["x", "y"])]
    (some "d") (some "d") (by decide) ?_).2
  intro t
  by_cases hB : ("B" : String) = t
  · subst hB
    decide
  · by_cases hA : ("A" : String) = t
    · subst hA
      decide
    · have eB : (("B" : String) == t) = false := beq_eq_false_iff_ne.mpr hB
      have eA : (("A" : String) == t) = false := beq_eq_false_iff_ne.mpr hA
      simp [get_columns, List.find?, eA, eB]

/-! ### C5 -/

/-- Claim C5: On the first successful observation (no stored fingerprint), the
cycle returns the no-observation result (`mudou = false`, no previous hash),
appends nothing to `historico_mudancas`, and adopts the observed
(identity, snapshot, fingerprint) triple as the new baseline. -/
theorem c5_theorem (s : SessionState) (r : CatalogRead) (now : Nat)
    (hfirst : s.schema_hash_teste = none)
    (h : String) (sch : List (String × List String)) (b : String)
    (hg : gerar_hash_schema r = some (h, sch, b)) :
    verificar_mudancas s r now =
      ({ s with schema_hash_teste := some h, schema_info := some sch, banco_atual := some b },
       ⟨false, none, some h, some sch, some b, none⟩) := by
  simp only [verificar_mudancas, hg, hfirst]

/-- Witness for C5: a concrete first observation yields no drift, no ledger
record, and a populated baseline. -/
theorem c5_witness :
    (verificar_mudancas initSessionState ⟨some [("t", ["c"])], some "A"⟩ 0).1.historico_mudancas = [] ∧
    (verificar_mudancas initSessionState ⟨some [("t", ["c"])], some "A"⟩ 0).2.mudou = false ∧
    (verificar_mudancas initSessionState ⟨some [("t", ["c"])], some "A"⟩ 0).2.hash_ant = none ∧
    (verificar_mudancas initSessionState ⟨some [("t", ["c"])], some "A"⟩ 0).1.banco_atual = some "A" := by
  have h := c5_theorem initSessionState ⟨some [("t", ["c"])], some "A"⟩ 0 rfl _ _ _ rfl
  rw [h]
  exact ⟨rfl, rfl, rfl, rfl⟩

/-! ### C3 -/

/-- Claim C3: When a baseline identity is stored and the new observation's
identity differs, the result is the database-switch drift, with no condition
on the fingerprints: the identity comparison decides before any fingerprint
comparison is reached. -/
theorem c3_theorem (s : SessionState) (r : CatalogRead) (now : Nat)
    (a hash_ant : String)
    (hbase : s.banco_atual = some a)
    (hh : s.schema_hash_teste = some hash_ant)
    (cat : List (String × List String)) (hc : r.catalog = some cat)
    (hb : obter_banco_atual r.dbName ≠ a) :
    (verificar_mudancas s r now).2.tipo = some "BANCO_NOVO" ∧
    (verificar_mudancas s r now).2.mudou = true := by
  have hne : some (obter_banco_atual r.dbName) ≠ s.banco_atual := by
    rw [hbase]
    simpa using hb
  simp only [verificar_mudancas, gerar_hash_schema, hc, hh]
  rw [if_pos hne]
  exact ⟨rfl, rfl⟩

/-- Witness for C3: the same schema observed under identity `"B"` after a
baseline under `"A"` is reported as `BANCO_NOVO` even though the new
fingerprint is literally the stored one. -/
theorem c3_witness :
    (verificar_mudancas
      (verificar_mudancas initSessionState ⟨some [("t", ["c"])], some "A"⟩ 0).1
      ⟨some [("t", ["c"])], some "B"⟩ 1).2.tipo = some "BANCO_NOVO" ∧
    (verificar_mudancas
      (verificar_mudancas initSessionState ⟨some [("t", ["c"])], some "A"⟩ 0).1
      ⟨some [("t", ["c"])], some "B"⟩ 1).2.hash_novo =
    (verificar_mudancas initSessionState ⟨some [("t", ["c"])], some "A"⟩ 0).1.schema_hash_teste :=
  ⟨(c3_theorem _ _ 1 "A" _ rfl rfl _ rfl (by decide)).1, rfl⟩

/-! ### C2 -/

/-- Claim C2, counterexample: The claim "for every cycle in which the database
catalog cannot be read the drift check aborts ... and a connectivity failure
is never reported as a drift event" is false as stated: when only the
`SELECT DB_NAME()` read fails, `obter_banco_atual` swallows the exception and
returns `"Banco Desconhecido"`, so the cycle proceeds and reports a
`BANCO_NOVO` drift, mutating the state. -/
theorem c2_counterexample :
    ¬ (∀ (s : SessionState) (r : CatalogRead) (now : Nat),
        r.catalog = none ∨ r.dbName = none →
        (verificar_mudancas s r now).2.mudou = false ∧
        (verificar_mudancas s r now).1 = s) := by
  intro hcl
  have h := hcl ⟨some "h", some [("t", ["c"])], [], [], [], some "mydb"⟩
    ⟨some [("t", ["c"])], none⟩ 0 (Or.inr rfl)
  exact absurd h.1 (by decide)

/-- Claim C2, amended: When the table/column catalog read raises, the cycle
aborts with the all-`none` result: no DriftResult is produced (`mudou` is
false, no schema — in particular no empty schema — is reported), the session
state is untouched, and no cache is invalidated. A failure of the
database-name read alone is not treated this way (see the counterexample). -/
theorem c2_theorem (a : AppState) (r : CatalogRead) (now : Nat)
    (hfail : r.catalog = none) :
    verificar_mudancas a.session r now = (a.session, ⟨false, none, none, none, none, none⟩) ∧
    driftCycle a r now = (a, ⟨false, none, none, none, none, none⟩) := by
  have h1 : verificar_mudancas a.session r now = (a.session, ⟨false, none, none, none, none, none⟩) := by
    simp only [verificar_mudancas, gerar_hash_schema, hfail]
  refine ⟨h1, ?_⟩
  simp only [driftCycle, h1]
  rfl

/-- Witness for C2: a concrete failed catalog read changes nothing. -/
theorem c2_witness :
    (⟨none, some "A"⟩ : CatalogRead).catalog = none ∧
    driftCycle ⟨initSessionState, [("oi", "SAUDACAO")], true⟩ ⟨none, some "A"⟩ 0 =
      (⟨initSessionState, [("oi", "SAUDACAO")], true⟩, ⟨false, none, none, none, none, none⟩) :=
  ⟨rfl, (c2_theorem ⟨initSessionState, [("oi", "SAUDACAO")], true⟩ ⟨none, some "A"⟩ 0 rfl).2⟩

/-! ### C1 -/

/-- Claim C1, counterexample: The claim that every `BANCO_NOVO`/`SCHEMA_MUDOU`
cycle clears all entries of `cache_classificacoes` is false: the module-level
drift handling only calls `st.cache_resource.clear()` and never touches the
classification cache, which stays non-empty across a detected switch. -/
theorem c1_counterexample :
    ¬ (∀ (a : AppState) (r : CatalogRead) (now : Nat),
        (driftCycle a r now).2.mudou = true →
        (driftCycle a r now).1.cache_classificacoes = []) := by
  intro hcl
  have h := hcl ⟨⟨some "h", some [("t", ["c"])], [], [], [], some "A"⟩, [("oi", "SAUDACAO")], true⟩
    ⟨some [("t", ["c"])], some "B"⟩ 0 (by decide)
  exact absurd h (by decide)

/-- Claim C1, amended: Every drift-check cycle — drift or not — leaves the
Intent Classification Cache exactly as it was; what a detected change clears
is the `st.cache_resource` resource cache (engine and semantic index). -/
theorem c1_theorem (a : AppState) (r : CatalogRead) (now : Nat) :
    (driftCycle a r now).1.cache_classificacoes = a.cache_classificacoes ∧
    (driftCycle a r now).1.resource_cache =
      (if (verificar_mudancas a.session r now).2.mudou then false else a.resource_cache) :=
  ⟨rfl, rfl⟩


/-! ### Branch reductions of `verificar_mudancas` -/

/-- Failed catalog read: the cycle aborts with the all-`none` result and the
state is untouched. -/
theorem verificar_fail (s : SessionState) (r : CatalogRead) (now : Nat)
    (hg : gerar_hash_schema r = none) :
    verificar_mudancas s r now = (s, ⟨false, none, none, none, none, none⟩) := by
  simp only [verificar_mudancas, hg]

/-- First observation: the baseline is adopted, nothing is appended. -/
theorem verificar_first (s : SessionState) (r : CatalogRead) (now : Nat)
    (h : String) (sch : List (String × List String)) (b : String)
    (hg : gerar_hash_schema r = some (h, sch, b))
    (hs : s.schema_hash_teste = none) :
    verificar_mudancas s r now =
      ({ s with schema_hash_teste := some h, schema_info := some sch, banco_atual := some b },
       ⟨false, none, some h, some sch, some b, none⟩) := by
  simp only [verificar_mudancas, hg, hs]

/-- Identity change: the `BANCO_NOVO` branch. -/
theorem verificar_switch (s : SessionState) (r : CatalogRead) (now : Nat)
    (h : String) (sch : List (String × List String)) (b ha : String)
    (hg : gerar_hash_schema r = some (h, sch, b))
    (hs : s.schema_hash_teste = some ha)
    (hb : some b ≠ s.banco_atual) :
    verificar_mudancas s r now =
      ({ s with
          historico_mudancas := s.historico_mudancas ++ [.banco_novo now s.banco_atual b],
          banco_atual := some b, schema_hash_teste := some h, schema_info := some sch },
       ⟨true, some ha, some h, some sch, some b, some "BANCO_NOVO"⟩) := by
  simp only [verificar_mudancas, hg, hs]
  rw [if_pos hb]

/-- Same identity, different fingerprint: the `SCHEMA_MUDOU` branch. -/
theorem verificar_schema_mudou (s : SessionState) (r : CatalogRead) (now : Nat)
    (h : String) (sch : List (String × List String)) (b ha : String)
    (hg : gerar_hash_schema r = some (h, sch, b))
    (hs : s.schema_hash_teste = some ha)
    (hb : ¬ some b ≠ s.banco_atual)
    (hd : h ≠ ha) :
    verificar_mudancas s r now =
      ({ s with
          historico_mudancas := s.historico_mudancas ++
            [.schema now b
              ((sch.map Prod.fst).filter fun t =>
                !((s.schema_info.getD []).map Prod.fst).contains t)
              (((s.schema_info.getD []).map Prod.fst).filter fun t =>
                !(sch.map Prod.fst).contains t)]
          schema_hash_teste := some h
          schema_info := some sch
          novas_tabelas := (sch.map Prod.fst).filter fun t =>
            !((s.schema_info.getD []).map Prod.fst).contains t
          deletadas_tabelas := ((s.schema_info.getD []).map Prod.fst).filter fun t =>
            !(sch.map Prod.fst).contains t },
       ⟨true, some ha, some h, some sch, some b, some "SCHEMA_MUDOU"⟩) := by
  simp only [verificar_mudancas, hg, hs]
  rw [if_neg hb, if_pos hd]

/-- Same identity, same fingerprint: the no-change branch. -/
theorem verificar_nochange (s : SessionState) (r : CatalogRead) (now : Nat)
    (h : String) (sch : List (String × List String)) (b ha : String)
    (hg : gerar_hash_schema r = some (h, sch, b))
    (hs : s.schema_hash_teste = some ha)
    (hb : ¬ some b ≠ s.banco_atual)
    (hd : ¬ h ≠ ha) :
    verificar_mudancas s r now = (s, ⟨false, some ha, some h, some sch, some b, none⟩) := by
  simp only [verificar_mudancas, hg, hs]
  rw [if_neg hb, if_neg hd]

/-! ### C6 -/

/-- Membership in a Python-style set difference implemented as a filter. -/
theorem mem_filter_not_contains {l₁ l₂ : List String} {t : String} :
    t ∈ l₁.filter (fun x => !l₂.contains x) ↔ (t ∈ l₁ ∧ t ∉ l₂) := by
  simp [List.mem_filter]

/-- Claim C6: On a schema-change cycle (same identity, different fingerprint),
the reported added set is the new table-name set minus the old one and the
reported removed set is the old minus the new, characterized both as the
literal set-difference computation and by membership. -/
theorem c6_theorem (s : SessionState) (r : CatalogRead) (now : Nat)
    (hash_ant : String) (hh : s.schema_hash_teste = some hash_ant)
    (oldsch : List (String × List String)) (hsi : s.schema_info = some oldsch)
    (h : String) (sch : List (String × List String)) (b : String)
    (hg : gerar_hash_schema r = some (h, sch, b))
    (hsame : s.banco_atual = some b)
    (hdiff : h ≠ hash_ant) :
    (verificar_mudancas s r now).2.tipo = some "SCHEMA_MUDOU" ∧
    (verificar_mudancas s r now).1.novas_tabelas =
      (sch.map Prod.fst).filter (fun t => !(oldsch.map Prod.fst).contains t) ∧
    (verificar_mudancas s r now).1.deletadas_tabelas =
      (oldsch.map Prod.fst).filter (fun t => !(sch.map Prod.fst).contains t) ∧
    (∀ t, t ∈ (verificar_mudancas s r now).1.novas_tabelas ↔
      (t ∈ sch.map Prod.fst ∧ t ∉ oldsch.map Prod.fst)) ∧
    (∀ t, t ∈ (verificar_mudancas s r now).1.deletadas_tabelas ↔
      (t ∈ oldsch.map Prod.fst ∧ t ∉ sch.map Prod.fst)) := by
  have hb : ¬ some b ≠ s.banco_atual := by
    rw [hsame]
    exact not_not_intro rfl
  rw [verificar_schema_mudou s r now h sch b hash_ant hg hh hb hdiff, hsi]
  simp only [Option.getD_some]
  refine ⟨trivial, trivial, trivial, fun t => mem_filter_not_contains,
    fun t => mem_filter_not_contains⟩

/-- Witness for C6: baseline tables `{T1, T2}`, new tables `{T2, T3}`;
the cycle reports `SCHEMA_MUDOU` with added `{T3}` and removed `{T1}`. -/
theorem c6_witness :
    (verificar_mudancas
      ⟨some (md5hex (jsonDumps [("T1", ["a"]), ("T2", ["b"])])),
       some [("T1", ["a"]), ("T2", ["b"])], [], [], [], some "db"⟩
      ⟨some [("T2", ["b"]), ("T3", ["c"])], some "db"⟩ 2).2.tipo = some "SCHEMA_MUDOU" ∧
    (verificar_mudancas
      ⟨some (md5hex (jsonDumps [("T1", ["a"]), ("T2", ["b"])])),
       some [("T1", ["a"]), ("T2", ["b"])], [], [], [], some "db"⟩
      ⟨some [("T2", ["b"]), ("T3", ["c"])], some "db"⟩ 2).1.novas_tabelas = ["T3"] ∧
    (verificar_mudancas
      ⟨some (md5hex (jsonDumps [("T1", ["a"]), ("T2", ["b"])])),
       some [("T1", ["a"]), ("T2", ["b"])], [], [], [], some "db"⟩
      ⟨some [("T2", ["b"]), ("T3", ["c"])], some "db"⟩ 2).1.deletadas_tabelas = ["T1"] := by
  have h := c6_theorem
    ⟨some (md5hex (jsonDumps [("T1", ["a"]), ("T2", ["b"])])),
     some [("T1", ["a"]), ("T2", ["b"])], [], [], [], some "db"⟩
    ⟨some [("T2", ["b"]), ("T3", ["c"])], some "db"⟩ 2
    _ rfl _ rfl _ _ _ rfl rfl (by decide)
  refine ⟨h.1, ?_, ?_⟩
  · rw [h.2.1]
    decide
  · rw [h.2.2.1]
    decide

/-! ### C7 -/

/-- Claim C7, counterexample: The claim that every cycle either writes nothing
or replaces the baseline and appends one ledger record as a unit is false as
stated: the first observation writes the baseline (the stored fingerprint
becomes `some _`) yet appends nothing to the ledger. -/
theorem c7_counterexample :
    ¬ (∀ (s : SessionState) (r : CatalogRead) (now : Nat),
        (verificar_mudancas s r now).1 = s ∨
        ∃ rec, (verificar_mudancas s r now).1.historico_mudancas =
            s.historico_mudancas ++ [rec] ∧
          (verificar_mudancas s r now).1.schema_hash_teste =
            (verificar_mudancas s r now).2.hash_novo ∧
          (verificar_mudancas s r now).1.schema_info =
            (verificar_mudancas s r now).2.schema ∧
          (verificar_mudancas s r now).1.banco_atual =
            (verificar_mudancas s r now).2.banco) := by
  intro hcl
  rcases hcl initSessionState ⟨some [("t", ["c"])], some "A"⟩ 0 with h | ⟨rec, hrec, _⟩
  · have hs : (verificar_mudancas initSessionState
        ⟨some [("t", ["c"])], some "A"⟩ 0).1.schema_hash_teste.isSome = true := rfl
    rw [h] at hs
    exact absurd hs (by decide)
  · have h0 : initSessionState.historico_mudancas ++ [rec] = ([] : List DriftRecord) :=
      hrec.symm
    simp [initSessionState] at h0

/-- Claim C7, amended: After the first observation (a fingerprint is already
stored), each cycle either leaves the whole session state unchanged or
replaces the stored identity, snapshot and fingerprint with the observed
triple and appends exactly one ledger record; in particular every non-drift
cycle (`mudou = false`) leaves the state exactly as it was. The first
observation itself writes the baseline without a ledger append (see the
counterexample and C5). -/
theorem c7_theorem (s : SessionState) (r : CatalogRead) (now : Nat)
    (hbase : s.schema_hash_teste ≠ none) :
    ((verificar_mudancas s r now).1 = s ∨
      ∃ rec h sch b, gerar_hash_schema r = some (h, sch, b) ∧
        (verificar_mudancas s r now).1.historico_mudancas =
          s.historico_mudancas ++ [rec] ∧
        (verificar_mudancas s r now).1.schema_hash_teste = some h ∧
        (verificar_mudancas s r now).1.schema_info = some sch ∧
        (verificar_mudancas s r now).1.banco_atual = some b) ∧
    ((verificar_mudancas s r now).2.mudou = false →
      (verificar_mudancas s r now).1 = s) := by
  rcases hg : gerar_hash_schema r with _ | ⟨⟨h, sch, b⟩⟩
  · rw [verificar_fail s r now hg]
    exact ⟨Or.inl rfl, fun _ => rfl⟩
  · rcases hs : s.schema_hash_teste with _ | ⟨ha⟩
    · exact absurd hs hbase
    · by_cases hb : some b ≠ s.banco_atual
      · rw [verificar_switch s r now h sch b ha hg hs hb]
        exact ⟨Or.inr ⟨_, h, sch, b, rfl, rfl, rfl, rfl, rfl⟩,
          fun hmf => Bool.noConfusion hmf⟩
      · by_cases hd : h ≠ ha
        · rw [verificar_schema_mudou s r now h sch b ha hg hs hb hd]
          exact ⟨Or.inr ⟨_, h, sch, b, rfl, rfl, rfl, rfl, (not_ne_iff.mp hb).symm⟩,
            fun hmf => Bool.noConfusion hmf⟩
        · rw [verificar_nochange s r now h sch b ha hg hs hb hd]
          exact ⟨Or.inl rfl, fun _ => rfl⟩

/-- Witness for C7: a cycle whose catalog read fails, on a state past its
first observation, reports no drift and leaves the state untouched. -/
theorem c7_witness :
    (⟨some "h", some [("t", ["c"])], [], [], [], some "db"⟩ : SessionState).schema_hash_teste ≠ none ∧
    ((verificar_mudancas ⟨some "h", some [("t", ["c"])], [], [], [], some "db"⟩
        ⟨none, none⟩ 0).2.mudou = false →
      (verificar_mudancas ⟨some "h", some [("t", ["c"])], [], [], [], some "db"⟩
        ⟨none, none⟩ 0).1 = ⟨some "h", some [("t", ["c"])], [], [], [], some "db"⟩) :=
  ⟨by decide,
   (c7_theorem ⟨some "h", some [("t", ["c"])], [], [], [], some "db"⟩ ⟨none, none⟩ 0 (by decide)).2⟩

/-! ### C8 -/

/-- Claim C8, counterexample: The claim that the added/removed table sets are
overwritten on every drift-check cycle (always reflecting only the most
recent change) is false: it would make the post-cycle sets independent of
their previous value, but a `BANCO_NOVO` cycle (like a no-change or failed
cycle) leaves them untouched, so a stale schema-diff set survives a database
switch. -/
theorem c8_counterexample :
    ¬ (∀ (s : SessionState) (r : CatalogRead) (now : Nat) (v : List String),
        (verificar_mudancas { s with novas_tabelas := v } r now).1.novas_tabelas =
        (verificar_mudancas s r now).1.novas_tabelas) := by
  intro hcl
  have h := hcl ⟨some "h", some [("t", ["c"])], [], [], [], some "A"⟩
    ⟨some [("t", ["c"])], some "B"⟩ 0 ["T3"]
  exact absurd h (by decide)

/-- Claim C8, amended: The added/removed table sets are overwritten exactly on
`SCHEMA_MUDOU` cycles, where they are recomputed from that cycle's diff; on
every other cycle (no change, first observation, database switch, failed
read) they keep their previous value, so they reflect the most recent
schema change, not the most recent change of any kind. -/
theorem c8_theorem (s : SessionState) (r : CatalogRead) (now : Nat) :
    ((verificar_mudancas s r now).2.tipo = some "SCHEMA_MUDOU" →
      ∃ h sch b, gerar_hash_schema r = some (h, sch, b) ∧
        (verificar_mudancas s r now).1.novas_tabelas =
          (sch.map Prod.fst).filter (fun t =>
            !((s.schema_info.getD []).map Prod.fst).contains t) ∧
        (verificar_mudancas s r now).1.deletadas_tabelas =
          ((s.schema_info.getD []).map Prod.fst).filter (fun t =>
            !(sch.map Prod.fst).contains t)) ∧
    ((verificar_mudancas s r now).2.tipo ≠ some "SCHEMA_MUDOU" →
      (verificar_mudancas s r now).1.novas_tabelas = s.novas_tabelas ∧
      (verificar_mudancas s r now).1.deletadas_tabelas = s.deletadas_tabelas) := by
  rcases hg : gerar_hash_schema r with _ | ⟨⟨h, sch, b⟩⟩
  · rw [verificar_fail s r now hg]
    exact ⟨fun habs => Option.noConfusion habs, fun _ => ⟨rfl, rfl⟩⟩
  · rcases hs : s.schema_hash_teste with _ | ⟨ha⟩
    · rw [verificar_first s r now h sch b hg hs]
      exact ⟨fun habs => Option.noConfusion habs, fun _ => ⟨rfl, rfl⟩⟩
    · by_cases hb : some b ≠ s.banco_atual
      · rw [verificar_switch s r now h sch b ha hg hs hb]
        refine ⟨fun habs => ?_, fun _ => ⟨rfl, rfl⟩⟩
        exact absurd (Option.some.inj habs) (by decide)
      · by_cases hd : h ≠ ha
        · rw [verificar_schema_mudou s r now h sch b ha hg hs hb hd]
          exact ⟨fun _ => ⟨h, sch, b, rfl, rfl, rfl⟩, fun habs => absurd rfl habs⟩
        · rw [verificar_nochange s r now h sch b ha hg hs hb hd]
          exact ⟨fun habs => Option.noConfusion habs, fun _ => ⟨rfl, rfl⟩⟩

/-- Witness for C8: a database-switch cycle is not a `SCHEMA_MUDOU` cycle and
leaves a previously recorded added-tables set `["T3"]` in place. -/
theorem c8_witness :
    (verificar_mudancas ⟨some "h", some [("t", ["c"])], ["T3"], [], [], some "A"⟩
      ⟨some [("t", ["c"])], some "B"⟩ 0).2.tipo ≠ some "SCHEMA_MUDOU" ∧
    (verificar_mudancas ⟨some "h", some [("t", ["c"])], ["T3"], [], [], some "A"⟩
      ⟨some [("t", ["c"])], some "B"⟩ 0).1.novas_tabelas = ["T3"] := by
  refine ⟨by decide, ?_⟩
  exact ((c8_theorem ⟨some "h", some [("t", ["c"])], ["T3"], [], [], some "A"⟩
    ⟨some [("t", ["c"])], some "B"⟩ 0).2 (by decide)).1

/-! ### C9 -/

/-- Every cycle extends the ledger by a (possibly empty) suffix whose length
is 1 exactly when drift was detected. -/
theorem verificar_historico_aux (s : SessionState) (r : CatalogRead) (now : Nat) :
    ∃ t, (verificar_mudancas s r now).1.historico_mudancas = s.historico_mudancas ++ t ∧
      t.length = (if (verificar_mudancas s r now).2.mudou then 1 else 0) := by
  rcases hg : gerar_hash_schema r with _ | ⟨⟨h, sch, b⟩⟩
  · rw [verificar_fail s r now hg]
    exact ⟨[], by simp, rfl⟩
  · rcases hs : s.schema_hash_teste with _ | ⟨ha⟩
    · rw [verificar_first s r now h sch b hg hs]
      exact ⟨[], by simp, rfl⟩
    · by_cases hb : some b ≠ s.banco_atual
      · rw [verificar_switch s r now h sch b ha hg hs hb]
        exact ⟨[.banco_novo now s.banco_atual b], rfl, rfl⟩
      · by_cases hd : h ≠ ha
        · rw [verificar_schema_mudou s r now h sch b ha hg hs hb hd]
          exact ⟨_, rfl, rfl⟩
        · rw [verificar_nochange s r now h sch b ha hg hs hb hd]
          exact ⟨[], by simp, rfl⟩

/-- Over a whole run, the ledger only grows by appending: the records already
present stay, in order, and its length grows by exactly the number of
drift-detecting cycles. -/
theorem runCycles_historico (obs : List (CatalogRead × Nat)) (s : SessionState) :
    (runCycles s obs).historico_mudancas.length =
      s.historico_mudancas.length + countDrifts s obs ∧
    ∃ t, (runCycles s obs).historico_mudancas = s.historico_mudancas ++ t := by
  induction obs generalizing s with
  | nil => exact ⟨by simp [runCycles, countDrifts], [], by simp [runCycles]⟩
  | cons p rest ih =>
    obtain ⟨r, tm⟩ := p
    obtain ⟨t1, ht1, hlen1⟩ := verificar_historico_aux s r tm
    obtain ⟨ihlen, t2, ht2⟩ := ih (verificar_mudancas s r tm).1
    constructor
    · show (runCycles (verificar_mudancas s r tm).1 rest).historico_mudancas.length = _
      rw [ihlen, ht1, List.length_append, hlen1]
      show _ = s.historico_mudancas.length + countDrifts s ((r, tm) :: rest)
      rw [countDrifts]
      omega
    · refine ⟨t1 ++ t2, ?_⟩
      show (runCycles (verificar_mudancas s r tm).1 rest).historico_mudancas = _
      rw [ht2, ht1, List.append_assoc]

/-- Claim C9: The ledger is append-only: a drift-detecting cycle appends
exactly one record and a non-drift cycle appends nothing; over any run the
existing records are preserved as a prefix (never removed or reordered) and,
starting from the empty initial state, the ledger holds exactly one record
per detected drift; the history view returns the last `n` records in
reverse-chronological order (most recent first) and, being a pure function,
does not change the ledger. -/
theorem c9_theorem (s : SessionState) (r : CatalogRead) (now : Nat)
    (l : List DriftRecord) (n : Nat) (obs : List (CatalogRead × Nat))
    (hn : n ≤ l.length) :
    ((verificar_mudancas s r now).2.mudou = true →
      ∃ rec, (verificar_mudancas s r now).1.historico_mudancas =
        s.historico_mudancas ++ [rec]) ∧
    ((verificar_mudancas s r now).2.mudou = false →
      (verificar_mudancas s r now).1.historico_mudancas = s.historico_mudancas) ∧
    (∃ t, (runCycles s obs).historico_mudancas = s.historico_mudancas ++ t) ∧
    ((runCycles initSessionState obs).historico_mudancas.length =
      countDrifts initSessionState obs) ∧
    recentChanges n l = l.reverse.take n ∧
    (recentChanges n l).length = n := by
  obtain ⟨t, ht, hlen⟩ := verificar_historico_aux s r now
  refine ⟨?_, ?_, (runCycles_historico obs s).2, ?_, ?_, ?_⟩
  · intro hm
    rw [hm] at hlen
    obtain ⟨rec, hrec⟩ := List.length_eq_one.mp hlen
    exact ⟨rec, by rw [ht, hrec]⟩
  · intro hm
    rw [hm] at hlen
    rw [ht, List.length_eq_zero.mp hlen, List.append_nil]
  · have := (runCycles_historico obs initSessionState).1
    simpa [initSessionState] using this
  · rw [recentChanges, List.take_reverse]
  · rw [recentChanges, List.length_reverse, List.length_drop]
    omega

/-- Witness for C9: two recorded switches viewed through a window of one, and
a one-cycle run from the initial state whose ledger length matches its drift
count. -/
theorem c9_witness :
    (1 : Nat) ≤ ([.banco_novo 0 none "a", .banco_novo 1 none "b"] : List DriftRecord).length ∧
    recentChanges 1 [.banco_novo 0 none "a", .banco_novo 1 none "b"] = [.banco_novo 1 none "b"] ∧
    (runCycles initSessionState [(⟨some [("t", ["c"])], some "A"⟩, 0)]).historico_mudancas.length =
      countDrifts initSessionState [(⟨some [("t", ["c"])], some "A"⟩, 0)] := by
  have h := c9_theorem initSessionState ⟨none, none⟩ 0
    [.banco_novo 0 none "a", .banco_novo 1 none "b"] 1
    [(⟨some [("t", ["c"])], some "A"⟩, 0)] (by decide)
  refine ⟨by decide, ?_, h.2.2.2.1⟩
  rw [h.2.2.2.2.1]
  decide

/-! ### C10 -/

/-- Claim C10: When the external classification call raises (`llmContent`
absent), `classificar_intencao` returns `QUERY_SQL` and leaves the cache
unchanged — the failure is not memoized, so the same question reaches the
classifier again later; every value the function ever stores is one of the
four valid categories; and unrecognized classifier output is replaced by
`QUERY_SQL` before being stored. -/
theorem c10_theorem (cache : List (String × String)) (pergunta content : String)
    (llm : Option String) :
    (cache.lookup (pyStrip (pyLower pergunta)) = none →
      classificar_intencao cache pergunta none = ("QUERY_SQL", cache)) ∧
    ((∀ kv ∈ cache, kv.2 ∈ categorias_validas) →
      ∀ kv ∈ (classificar_intencao cache pergunta llm).2, kv.2 ∈ categorias_validas) ∧
    (cache.lookup (pyStrip (pyLower pergunta)) = none →
      pyUpper (pyStrip content) ∉ categorias_validas →
      classificar_intencao cache pergunta (some content) =
        ("QUERY_SQL", (pyStrip (pyLower pergunta), "QUERY_SQL") :: cache)) := by
  refine ⟨?_, ?_, ?_⟩
  · intro hmiss
    simp only [classificar_intencao, hmiss]
  · intro hval kv hkv
    rcases hlk : cache.lookup (pyStrip (pyLower pergunta)) with _ | ⟨c⟩ <;>
      simp only [classificar_intencao, hlk] at hkv
    · rcases llm with _ | ⟨content'⟩
      · exact hval kv hkv
      · by_cases hc : categorias_validas.contains (pyUpper (pyStrip content')) = true <;>
          simp only [hc, if_true, if_false, Bool.not_eq_true, ite_false, ite_true] at hkv <;>
          rcases List.mem_cons.mp hkv with hkv1 | hkv2
        · rw [hkv1]
          exact List.mem_of_elem_eq_true hc
        · exact hval kv hkv2
        · rw [hkv1]
          simp [categorias_validas]
        · exact hval kv hkv2
    · exact hval kv hkv
  · intro hmiss hinv
    have hc : categorias_validas.contains (pyUpper (pyStrip content)) = false := by
      rw [Bool.eq_false_iff]
      intro hcc
      exact hinv (List.mem_of_elem_eq_true hcc)
    simp only [classificar_intencao, hmiss, hc, ite_false, Bool.false_eq_true]

/-- Witness for C10: a cache miss with a failing classifier call returns
`QUERY_SQL` and leaves the empty cache empty; the unrecognized answer
`"BANANA"` is stored as `QUERY_SQL` under the normalized key. -/
theorem c10_witness :
    ([] : List (String × String)).lookup (pyStrip (pyLower "  Oi ")) = none ∧
    classificar_intencao [] "  Oi " none = ("QUERY_SQL", []) ∧
    pyUpper (pyStrip "BANANA") ∉ categorias_validas ∧
    classificar_intencao [] "  Oi " (some "BANANA") = ("QUERY_SQL", [("oi", "QUERY_SQL")]) := by
  have h := c10_theorem [] "  Oi " "BANANA" none
  refine ⟨rfl, h.1 rfl, by decide, ?_⟩
  rw [h.2.2 rfl (by decide)]
  decide
